import Mathlib

set_option maxRecDepth 16000

/-!
Shallow embedding of the Switch Studio zones module
(`src/switch_studio/static/js/app_tabs.js`, the `SwitchStudioZones` IIFE):
the geometry normalizer/validator, the command lifecycle tracker, and the
target-history/render coordinator, together with theorems about the
specification's claims.

JS numbers reaching the module boundary are modelled as follows: a raw
input value is either a finite number (modelled as a rational, the image of
`Number(value)`) or a non-finite/non-numeric value; all geometry after the
`toRoundedInt` coercion is exact integer arithmetic, matching the source,
which rounds every bound to an integer before any computation.
-/

namespace SwitchStudioZones

/-- Per-axis inclusive limits plus the shared minimum span, as held in the
module-level `limits` variable (populated from `init` options). -/
structure Limits where
  xMin : Int
  xMax : Int
  yMin : Int
  yMax : Int
  zMin : Int
  zMax : Int
  minSpan : Int
deriving DecidableEq, Repr

/-- Source `DEFAULT_LIMITS`. -/
def DEFAULT_LIMITS : Limits :=
  { xMin := -900, xMax := 900, yMin := -200, yMax := 1400,
    zMin := -500, zMax := 500, minSpan := 20 }

/-- A raw JS value as seen through `Number(value)`: either a finite number
(a rational) or anything non-finite / non-numeric. -/
inductive RawValue where
  | num (q : ℚ)
  | nonFinite
deriving DecidableEq, Repr

/-- JS `Math.round`: round half toward positive infinity, i.e. `⌊q + 1/2⌋`.
Written as an integer floor division over the rational's numerator and
denominator so that it evaluates by kernel reduction; the theorem
`jsRound_eq_floor` below certifies the formula. -/
def jsRound (q : ℚ) : Int :=
  (2 * q.num + (q.den : Int)).fdiv (2 * (q.den : Int))

/-- A finite raw value holding the integer `n` (used to write concrete
inputs). -/
def RawValue.int (n : Int) : RawValue :=
  .num ⟨n, 1, Nat.one_ne_zero, Nat.coprime_one_right _⟩

/-- Source `toRoundedInt(value, fallback)`: `Number(value)`,
fallback on non-finite, otherwise `Math.round`. -/
def toRoundedInt (value : RawValue) (fallback : Int) : Int :=
  match value with
  | .num q => jsRound q
  | .nonFinite => fallback

/-- A raw zone configuration: the six bound fields may hold arbitrary
values (`rawConfig?.x_min` and friends before coercion). -/
structure RawZoneConfig where
  x_min : RawValue
  x_max : RawValue
  y_min : RawValue
  y_max : RawValue
  z_min : RawValue
  z_max : RawValue
deriving DecidableEq, Repr

/-- A normalized zone configuration: six integers, as returned by
`normalizeZoneConfig`. -/
structure ZoneConfig where
  x_min : Int
  x_max : Int
  y_min : Int
  y_max : Int
  z_min : Int
  z_max : Int
deriving DecidableEq, Repr

/-- The options object taken by `normalizeZoneConfig` / `validateZoneConfig`:
each flag is absent, `true`, or `false` (the source reads
`opts.clampToBounds !== false` and `opts.allowZeroSpan === true`). -/
structure NormOptions where
  clampToBounds : Option Bool := none
  allowZeroSpan : Option Bool := none
deriving DecidableEq, Repr

/-- Source read `opts.clampToBounds !== false`: defaults to `true`. -/
def NormOptions.clampB (o : NormOptions) : Bool :=
  match o.clampToBounds with
  | some false => false
  | _ => true

/-- Source read `opts.allowZeroSpan === true`: defaults to `false`. -/
def NormOptions.allowZ (o : NormOptions) : Bool :=
  match o.allowZeroSpan with
  | some true => true
  | _ => false

/-- Source `clamp(value, min, max)`:
`Math.max(min, Math.min(max, value))`. -/
def clamp (value lo hi : Int) : Int :=
  max lo (min hi value)

/-- Source `sortPair(a, b)`. -/
def sortPair (a b : Int) : Int × Int :=
  (min a b, max a b)

/-- Source `enforceMinSpan(minVal, maxVal, boundMin, boundMax, minSpan)`. `Math.round((minVal + maxVal) / 2)` on integers is floor of
`(sum + 1) / 2`; `Math.floor(minSpan / 2)` is floor division by 2. -/
def enforceMinSpan (minVal maxVal boundMin boundMax minSpan : Int) : Int × Int :=
  if maxVal - minVal ≥ minSpan then
    (minVal, maxVal)
  else
    let center := (minVal + maxVal + 1).fdiv 2
    let m1 := center - minSpan.fdiv 2
    let p := if m1 < boundMin then (boundMin, boundMin + minSpan) else (m1, m1 + minSpan)
    if p.2 > boundMax then (boundMax - minSpan, boundMax) else p

/-- The per-axis body of `normalizeZoneConfig`: coerce, sort, optionally
clamp-and-resort, optionally enforce the minimum span. The source repeats
exactly these steps inline for each of the three axes. -/
def normalizeAxis (rawLo rawHi : RawValue) (boundMin boundMax minSpan : Int)
    (clampToBounds allowZeroSpan : Bool) : Int × Int :=
  let lo := toRoundedInt rawLo 0
  let hi := toRoundedInt rawHi 0
  let p1 := sortPair lo hi
  let p2 :=
    if clampToBounds then
      sortPair (clamp p1.1 boundMin boundMax) (clamp p1.2 boundMin boundMax)
    else p1
  if allowZeroSpan then p2
  else enforceMinSpan p2.1 p2.2 boundMin boundMax minSpan

/-- Source `normalizeZoneConfig(rawConfig, options)`. -/
def normalizeZoneConfig (limits : Limits) (rawConfig : RawZoneConfig)
    (options : NormOptions) : ZoneConfig :=
  let cb := options.clampB
  let az := options.allowZ
  let px := normalizeAxis rawConfig.x_min rawConfig.x_max limits.xMin limits.xMax limits.minSpan cb az
  let py := normalizeAxis rawConfig.y_min rawConfig.y_max limits.yMin limits.yMax limits.minSpan cb az
  let pz := normalizeAxis rawConfig.z_min rawConfig.z_max limits.zMin limits.zMax limits.minSpan cb az
  { x_min := px.1, x_max := px.2,
    y_min := py.1, y_max := py.2,
    z_min := pz.1, z_max := pz.2 }

/-- The result object of `validateZoneConfig`. -/
structure ValidationResult where
  valid : Bool
  errors : List String
  normalized : ZoneConfig
deriving DecidableEq, Repr

/-- Source `validateZoneConfig(rawConfig, options)`: always
normalizes with `clampToBounds: true`, then derives error strings from the
normalized values. -/
def validateZoneConfig (limits : Limits) (rawConfig : RawZoneConfig)
    (options : NormOptions) : ValidationResult :=
  let allowZeroSpan := options.allowZ
  let normalized := normalizeZoneConfig limits rawConfig
    { allowZeroSpan := some allowZeroSpan, clampToBounds := some true }
  let width := normalized.x_max - normalized.x_min
  let depth := normalized.y_max - normalized.y_min
  let height := normalized.z_max - normalized.z_min
  let spanErrors :=
    if allowZeroSpan then []
    else
      (if width < limits.minSpan then
        ["Width span must be at least " ++ toString limits.minSpan ++ " cm."] else []) ++
      (if depth < limits.minSpan then
        ["Depth span must be at least " ++ toString limits.minSpan ++ " cm."] else []) ++
      (if height < limits.minSpan then
        ["Height span must be at least " ++ toString limits.minSpan ++ " cm."] else [])
  let errors := spanErrors ++
    (if normalized.x_min < limits.xMin ∨ normalized.x_max > limits.xMax then
      ["Width must stay within " ++ toString limits.xMin ++ " to " ++ toString limits.xMax ++ " cm."] else []) ++
    (if normalized.y_min < limits.yMin ∨ normalized.y_max > limits.yMax then
      ["Depth must stay within " ++ toString limits.yMin ++ " to " ++ toString limits.yMax ++ " cm."] else []) ++
    (if normalized.z_min < limits.zMin ∨ normalized.z_max > limits.zMax then
      ["Height must stay within " ++ toString limits.zMin ++ " to " ++ toString limits.zMax ++ " cm."] else [])
  { valid := errors.isEmpty, errors := errors, normalized := normalized }

/-- The six renamed fields of an area payload entry. -/
structure AreaFields where
  width_min : Int
  width_max : Int
  depth_min : Int
  depth_max : Int
  height_min : Int
  height_max : Int
deriving DecidableEq, Repr

/-- Source `buildAreaPayload(areaKey, zoneConfig)`: normalize with
`allowZeroSpan: false, clampToBounds: true`, then rename the fields under
the caller-supplied area key. -/
def buildAreaPayload (limits : Limits) (areaKey : String)
    (zoneConfig : RawZoneConfig) : String × AreaFields :=
  let normalized := normalizeZoneConfig limits zoneConfig
    { allowZeroSpan := some false, clampToBounds := some true }
  (areaKey,
    { width_min := normalized.x_min, width_max := normalized.x_max,
      depth_min := normalized.y_min, depth_max := normalized.y_max,
      height_min := normalized.z_min, height_max := normalized.z_max })

/-- The axis limits installed by the repository's frontend test harness. -/
def TEST_LIMITS : Limits :=
  { xMin := -200, xMax := 200, yMin := 0, yMax := 300,
    zMin := -50, zMax := 200, minSpan := 20 }

/-- A trail point `{x, y}`. -/
abbrev Point := Int × Int

/-- A raw target as delivered in a telemetry frame: every field may hold an
arbitrary value. -/
structure RawTarget where
  id : RawValue := .nonFinite
  x : RawValue := .nonFinite
  y : RawValue := .nonFinite
  z : RawValue := .nonFinite
  dop : RawValue := .nonFinite
deriving DecidableEq, Repr

/-- A normalized target, all fields coerced to integers. -/
structure Target where
  id : Int
  x : Int
  y : Int
  z : Int
  dop : Int
deriving DecidableEq, Repr

/-- Source `normalizeTarget(target)`. -/
def normalizeTarget (t : RawTarget) : Target :=
  { id := toRoundedInt t.id 0, x := toRoundedInt t.x 0, y := toRoundedInt t.y 0,
    z := toRoundedInt t.z 0, dop := toRoundedInt t.dop 0 }

/-- Source `getMotionLabelFromDoppler(doppler)` (the chart-marker
motion label). The pipeline always passes an already-coerced integer. -/
def getMotionLabelFromDoppler (dop : Int) : String :=
  if dop > 10 ∨ dop < -10 then "Moving" else "Stationary"

/-- Source `getFriendlyTargetLabel(idValue)`. -/
def getFriendlyTargetLabel (id : Int) : String :=
  let pre := "D" ++ toString id
  if id = 1 then pre ++ " (Primary)" else pre ++ " (Secondary)"

/-- The per-target chart text built in `handleNewData`:
`` `${getFriendlyTargetLabel(t.id)}<br>${getMotionLabelFromDoppler(t.dop)}` ``. -/
def chartTargetText (t : Target) : String :=
  getFriendlyTargetLabel t.id ++ "<br>" ++ getMotionLabelFromDoppler t.dop

/-- The table-row doppler badge text computed inline in `handleNewData`
(`dopStatus`). -/
def dopplerBadgeStatus (dop : Int) : String :=
  if dop > 10 then "Moving" else if dop < -10 then "Approaching" else "Stationary"

/-- The table-row doppler badge CSS class computed inline in
`handleNewData` (`dopClass`). -/
def dopplerBadgeClass (dop : Int) : String :=
  if dop > 10 then "doppler-moving"
  else if dop < -10 then "doppler-approaching"
  else "doppler-stationary"

/-- One table row of the data table body, as concatenated in
`handleNewData`. -/
def targetRowHtml (t : Target) : String :=
  let targetLabel := getFriendlyTargetLabel t.id
  let targetClass := if t.id = 1 then "target-primary" else "target-secondary"
  "<tr><td class=\"target-id-cell\"><span class=\"target-id-tag " ++ targetClass ++
    "\"><span class=\"target-id-dot\"></span>" ++ targetLabel ++
    "</span></td><td class=\"target-num\">" ++ toString t.x ++
    "</td><td class=\"target-num\">" ++ toString t.y ++
    "</td><td class=\"target-num\">" ++ toString t.z ++
    "</td><td class=\"doppler-cell\"><span class=\"doppler-badge " ++
    dopplerBadgeClass t.dop ++ "\">" ++ dopplerBadgeStatus t.dop ++
    "</span></td></tr>"

/-- The full table body markup for a non-empty target list (`innerHTML`
starts empty and one row is appended per target). -/
def tableRowsHtml (ts : List Target) : String :=
  ts.foldl (fun acc t => acc ++ targetRowHtml t) ""

/-- The single no-data row written to the table body
(`<tr><td colspan="5" class="no-data">…</td></tr>`). -/
def noDataRowHtml (notice : String) : String :=
  "<tr><td colspan=\"5\" class=\"no-data\">" ++ notice ++ "</td></tr>"

/-- The marker size `Math.max(8, Math.min(40, 10 + z / 5))`; JS float
arithmetic is modelled exactly over the rationals. -/
def markerSize (z : Int) : ℚ :=
  max 8 (min 40 (10 + (z : ℚ) / 5))

/-- The target-history map: JS object keyed by target id, each value an
ordered trail of points (oldest first). -/
abbrev HistMap := List (Int × List Point)

/-- First-match association lookup (`targetHistory[id]`). -/
def histLookup (id : Int) : HistMap → Option (List Point)
  | [] => none
  | (k, ps) :: rest => if k = id then some ps else histLookup id rest

/-- The cap step after a push: `if (trail.length > historyLength)
trail.shift()`. -/
def trimFront (L : Nat) (ps : List Point) : List Point :=
  if ps.length > L then ps.tail else ps

/-- One iteration of the append loop in `handleNewData`: create the trail
if absent, push the point, drop the oldest point if over the cap. -/
def pushPoint (L : Nat) (id : Int) (p : Point) : HistMap → HistMap
  | [] => [(id, trimFront L [p])]
  | (k, ps) :: rest =>
    if k = id then (k, trimFront L (ps ++ [p])) :: rest
    else (k, ps) :: pushPoint L id p rest

/-- The history maintenance in `handleNewData`: evict ids absent from the
current frame, then append each target's point. -/
def updateHistory (L : Nat) (hist : HistMap) (targets : List Target) : HistMap :=
  let ids := targets.map Target.id
  let kept := hist.filter (fun e => decide (e.1 ∈ ids))
  targets.foldl (fun h t => pushPoint L t.id (t.x, t.y) h) kept

/-- The flattened x coordinates of all trails with a `null` sentinel after
each trail (`historyX`). -/
def flattenHistoryX (hist : HistMap) : List (Option Int) :=
  hist.foldl (fun acc e => acc ++ e.2.map (fun p => some p.1) ++ [none]) []

/-- The flattened y coordinates of all trails with a `null` sentinel after
each trail (`historyY`). -/
def flattenHistoryY (hist : HistMap) : List (Option Int) :=
  hist.foldl (fun acc e => acc ++ e.2.map (fun p => some p.2) ++ [none]) []

/-- The mutable module state owned by the zones component: the history
map, the gate-suppression flag, the pending command id (`lastCommandId`,
a finite JS number or null), and the table body markup. -/
structure ZonesState where
  targetHistory : HistMap := []
  targetsSuppressedByGate : Bool := false
  lastCommandId : Option ℚ := none
  tableHTML : String := ""
deriving DecidableEq, Repr

/-- Observable calls made to the external surfaces during one entry-point
invocation: the status sink (`setPacketStatus`), toasts (`showToast`), the
command log (`appendCommandLog`), the zone status banner
(`showZoneStatus`), the timestamp callback, and the Plotly chart calls.
`restyleClear i` is the clearing restyle of series `i` with empty arrays;
`restyleTargets` is the incremental two-series restyle (series `[0, 1]`);
`reactTargets` is the full redraw. -/
inductive UIEvent where
  | packetStatus (mode message : String)
  | toastNote (mode message : String) (timeoutMs : Option Int)
  | commandLogLine (message ty : String)
  | zoneStatusNote (message ty : String)
  | timestampTick
  | restyleClear (seriesIndex : Nat)
  | restyleTargets (xs ys : List Int) (texts : List String) (sizes : List ℚ)
      (histX histY : List (Option Int))
  | reactTargets (xs ys : List Int) (texts : List String) (sizes : List ℚ)
      (histX histY : List (Option Int))
deriving DecidableEq, Repr

/-- The environment of one call: which DOM surfaces and optional injected
callbacks are available (`chartEl && window.Plotly`, `dataTableBodyEl`,
`shouldRenderTargetsFn`, `getIsEditingFn`, `getIsInteractingFn`,
`updateTimestampFn`; `none` means the callback is not installed), and
whether a chart call made now would throw. -/
structure CallEnv where
  chartAvailable : Bool := true
  tableAvailable : Bool := true
  shouldRenderTargets : Option Bool := none
  isEditing : Option Bool := none
  isInteracting : Option Bool := none
  hasUpdateTimestamp : Bool := false
  restyleThrows : Bool := false
  reactThrows : Bool := false
deriving DecidableEq, Repr

/-- Immutable configuration fixed at `init`: the axis limits and the trail
capacity (`historyLength`, default 15). -/
structure Config where
  limits : Limits := DEFAULT_LIMITS
  historyLength : Nat := 15
deriving DecidableEq, Repr

/-- The `payload` of a telemetry frame; `targets := none` models a payload
whose `targets` field is not an array. -/
structure Payload where
  targets : Option (List RawTarget) := none
deriving DecidableEq, Repr

/-- A `{topic, payload}` message; a missing (`none`) or empty topic is
falsy in the source's guard. -/
structure FrameMsg where
  topic : Option String := none
  payload : Option Payload := none
deriving DecidableEq, Repr

/-- JS falsiness of an optional string (`!msg.topic` / `!currentTopic`). -/
def strFalsy : Option String → Bool
  | none => true
  | some s => decide (s = "")

instance : DecidableEq (Except Unit Bool) := fun a b =>
  match a, b with
  | .ok x, .ok y =>
    match decEq x y with
    | isTrue h => isTrue (h ▸ rfl)
    | isFalse h => isFalse (fun hc => h (by cases hc; rfl))
  | .ok _, .error _ => isFalse (fun hc => Except.noConfusion hc)
  | .error _, .ok _ => isFalse (fun hc => Except.noConfusion hc)
  | .error x, .error y => isTrue (by cases x; cases y; rfl)

/-- The outcome of one `handleNewData` call: the returned boolean, or a
propagated exception (`Except.error`); the state after the call; and the
outbound calls that were made (in order). -/
structure HNDOut where
  result : Except Unit Bool
  state : ZonesState
  events : List UIEvent
deriving DecidableEq, Repr

/-- Source `clearTargetVisualization(message)`: reset the history
map, issue the two chart-clearing restyles inside a try/catch (a throw on
the first call skips the second but never escapes), and write the no-data
row to the table body. -/
def clearTargetVisualization (env : CallEnv) (s : ZonesState) (message : Option String) :
    ZonesState × List UIEvent :=
  let s1 := { s with targetHistory := [] }
  let notice :=
    match message with
    | some m => if m = "" then "No targets detected" else m
    | none => "No targets detected"
  let chartEvents :=
    if env.chartAvailable then
      if env.restyleThrows then [UIEvent.restyleClear 0]
      else [UIEvent.restyleClear 0, UIEvent.restyleClear 1]
    else []
  let s2 := if env.tableAvailable then { s1 with tableHTML := noDataRowHtml notice } else s1
  (s2, chartEvents)

/-- Source `handleNewData(msg, currentTopic)`. The accepted-frame
chart calls (`Plotly.restyle` while editing, `Plotly.react` otherwise) are
not wrapped in try/catch in the source, so a throw there propagates
(`Except.error`); the gate-suppressed path goes through
`clearTargetVisualization`, which catches. -/
def handleNewData (cfg : Config) (env : CallEnv) (s : ZonesState)
    (msg : Option FrameMsg) (currentTopic : Option String) : HNDOut :=
  match msg with
  | none => ⟨.ok false, s, []⟩
  | some m =>
    if strFalsy m.topic || m.payload.isNone then ⟨.ok false, s, []⟩
    else if strFalsy currentTopic || decide (m.topic ≠ currentTopic) then ⟨.ok false, s, []⟩
    else if !env.chartAvailable then ⟨.ok false, s, []⟩
    else
      let shouldRender := env.shouldRenderTargets.getD true
      if !shouldRender then
        if !s.targetsSuppressedByGate then
          let cleared := clearTargetVisualization env s (some "No targets detected")
          ⟨.ok true, { cleared.1 with targetsSuppressedByGate := true },
            cleared.2 ++ [.packetStatus "info" "No active occupancy"]⟩
        else
          ⟨.ok true, { s with targetsSuppressedByGate := true }, []⟩
      else
        let s0 := { s with targetsSuppressedByGate := false }
        let targets := ((m.payload.getD {}).targets.getD []).map normalizeTarget
        let tickEvents := if env.hasUpdateTimestamp then [UIEvent.timestampTick] else []
        let statusEvents := tickEvents ++
          [.packetStatus "info" ("Targets Visible: " ++ toString targets.length)]
        let hist := updateHistory cfg.historyLength s0.targetHistory targets
        let s1 := { s0 with targetHistory := hist }
        let histX := flattenHistoryX hist
        let histY := flattenHistoryY hist
        let sizes := targets.map (fun t => markerSize t.z)
        let isEditing := env.isEditing.getD false
        let isInteracting := env.isInteracting.getD false
        if isEditing && isInteracting then
          ⟨.ok true, s1, statusEvents⟩
        else
          let chartEvent :=
            if isEditing then
              UIEvent.restyleTargets (targets.map Target.x) (targets.map Target.y)
                (targets.map chartTargetText) sizes histX histY
            else
              UIEvent.reactTargets (targets.map Target.x) (targets.map Target.y)
                (targets.map chartTargetText) sizes histX histY
          let chartThrows := if isEditing then env.restyleThrows else env.reactThrows
          let events := statusEvents ++ [chartEvent]
          if chartThrows then ⟨.error (), s1, events⟩
          else if !env.tableAvailable then ⟨.ok true, s1, events⟩
          else if targets.isEmpty then
            ⟨.ok true, { s1 with tableHTML := noDataRowHtml "Scanning for motion..." }, events⟩
          else
            ⟨.ok true, { s1 with tableHTML := tableRowsHtml targets }, events⟩

/-- Source `setPendingCommand(actionId)`: no-op on non-finite
input; otherwise record the id and emit a syncing status plus a log line
from the static label tables. -/
def setPendingCommand (s : ZonesState) (actionId : RawValue) : ZonesState × List UIEvent :=
  match actionId with
  | .nonFinite => (s, [])
  | .num parsedId =>
    let label :=
      if parsedId = 1 then "Auto-Config Interference"
      else if parsedId = 3 then "Clear Interference"
      else if parsedId = 4 then "Reset Detection Zones"
      else if parsedId = 5 then "Clear Stay Zones"
      else "Command " ++ toString parsedId
    let status :=
      if parsedId = 1 then "Scanning for interference..."
      else if parsedId = 3 then "Clearing interference zones..."
      else if parsedId = 4 then "Resetting detection zones..."
      else if parsedId = 5 then "Clearing stay zones..."
      else "Sending " ++ label ++ "..."
    ({ s with lastCommandId := some parsedId },
     [.packetStatus "syncing" status, .commandLogLine ("Sent " ++ label) "syncing"])

/-- Source `handleInterferenceZones(zones)`: the terminal
transition of the command lifecycle. `zones := none` models a non-array
argument (count 0); only the count of an array argument matters. -/
def handleInterferenceZones (s : ZonesState) (zones : Option (List Unit)) :
    ZonesState × List UIEvent :=
  match s.lastCommandId with
  | none => (s, [])
  | some cid =>
    let zoneCount := (zones.getD []).length
    let outcome :=
      if cid = 1 then
        if zoneCount = 0 then ("Scan complete: no active interference found.", "saved")
        else ("Auto-config complete: found " ++ toString zoneCount ++ " interference zone" ++
              (if zoneCount = 1 then "" else "s") ++ ".", "info")
      else if cid = 3 then
        if zoneCount = 0 then ("Interference cleared: zones reset.", "saved")
        else ("Clear command finished but " ++ toString zoneCount ++ " zone" ++
              (if zoneCount = 1 then "" else "s") ++ " still reported.", "error")
      else if cid = 4 then ("Detection zone reset command completed.", "saved")
      else if cid = 5 then ("Stay zone clear command completed.", "saved")
      else ("Command completed.", "info")
    let message := outcome.1
    let ty := outcome.2
    let packetMode := if ty = "error" then "error" else if ty = "saved" then "saved" else "info"
    let toastMode := if ty = "error" then "error" else packetMode
    ({ s with lastCommandId := none },
     [.zoneStatusNote message ty, .commandLogLine message ty,
      .packetStatus packetMode message, .toastNote toastMode message (some 2200)])

/-- Source `clearPendingCommand()`. -/
def clearPendingCommand (s : ZonesState) : ZonesState :=
  { s with lastCommandId := none }

/-- Source `getPendingCommandId()`. -/
def getPendingCommandId (s : ZonesState) : Option ℚ :=
  s.lastCommandId

/-- Substring containment, used to state the "message contains …" claims. -/
def strContains (s sub : String) : Prop :=
  sub.data <:+: s.data

/-- The last `L` elements of a list (specification-side helper used to
state the FIFO sliding-window property of a trail). -/
def takeLast (L : Nat) (ps : List Point) : List Point :=
  ps.drop (ps.length - L)

/-- The points contributed by target id `id` in one frame, in frame order
(specification-side helper). -/
def ptsOf (id : Int) (ts : List Target) : List Point :=
  (ts.filter (fun t => decide (t.id = id))).map (fun t => (t.x, t.y))

/-! ## Theorems -/

/-- Certification that `jsRound` is JS `Math.round` on a finite value: floor of `q + 1/2`
(round half toward positive infinity). -/
theorem jsRound_eq_floor (q : ℚ) : jsRound q = ⌊q + 1 / 2⌋ := by
  have hd : (q.den : ℚ) ≠ 0 := Nat.cast_ne_zero.mpr q.den_nz
  have hq : (q.num : ℚ) = q * (q.den : ℚ) := (div_eq_iff hd).mp (Rat.num_div_den q)
  unfold jsRound
  rw [Int.fdiv_eq_ediv _ (by positivity)]
  rw [show (2 * (q.den : ℤ)) = ((2 * q.den : ℕ) : ℤ) by push_cast; ring]
  rw [← Rat.floor_intCast_div_natCast]
  congr 1
  push_cast
  rw [div_eq_iff (by positivity), hq]
  ring

theorem clamp_mem (value lo hi : Int) (h : lo ≤ hi) :
    lo ≤ clamp value lo hi ∧ clamp value lo hi ≤ hi := by
  simp only [clamp]
  omega

/-- Lemma: `enforceMinSpan` always returns an interval of span at least `minSpan`
(when the recentring path is taken, the span is exactly `minSpan`, even if
the bounds are narrower than `minSpan`). -/
theorem enforceMinSpan_span (minVal maxVal boundMin boundMax minSpan : Int) :
    minSpan ≤ (enforceMinSpan minVal maxVal boundMin boundMax minSpan).2 -
      (enforceMinSpan minVal maxVal boundMin boundMax minSpan).1 := by
  simp only [enforceMinSpan]
  split
  · omega
  · split <;> split <;> simp_all

/-- If the input interval is ordered and inside bounds that are at least
`minSpan` wide, `enforceMinSpan` stays ordered and inside the bounds. -/
theorem enforceMinSpan_bounds (minVal maxVal boundMin boundMax minSpan : Int)
    (h0 : minVal ≤ maxVal) (h1 : boundMin ≤ minVal) (h2 : maxVal ≤ boundMax)
    (h3 : minSpan ≤ boundMax - boundMin) :
    boundMin ≤ (enforceMinSpan minVal maxVal boundMin boundMax minSpan).1 ∧
    (enforceMinSpan minVal maxVal boundMin boundMax minSpan).1 ≤
      (enforceMinSpan minVal maxVal boundMin boundMax minSpan).2 ∧
    (enforceMinSpan minVal maxVal boundMin boundMax minSpan).2 ≤ boundMax := by
  simp only [enforceMinSpan]
  split
  · omega
  · split <;> split <;> simp_all <;> omega

/-- With `allowZeroSpan` off, one normalized axis always has span at least
`minSpan`, for any bounds and any clamping mode. -/
theorem normalizeAxis_span (rawLo rawHi : RawValue) (bm bM s : Int) (cb : Bool) :
    s ≤ (normalizeAxis rawLo rawHi bm bM s cb false).2 -
        (normalizeAxis rawLo rawHi bm bM s cb false).1 := by
  simp only [normalizeAxis, Bool.false_eq_true, if_false]
  exact enforceMinSpan_span _ _ _ _ _

/-- With clamping on and bounds wide enough for the (possibly enforced)
span, one normalized axis is ordered and inside its bounds. -/
theorem normalizeAxis_bounds (rawLo rawHi : RawValue) (bm bM s : Int) (az : Bool)
    (hb : bm ≤ bM) (hs : az = false → s ≤ bM - bm) :
    bm ≤ (normalizeAxis rawLo rawHi bm bM s true az).1 ∧
    (normalizeAxis rawLo rawHi bm bM s true az).1 ≤
      (normalizeAxis rawLo rawHi bm bM s true az).2 ∧
    (normalizeAxis rawLo rawHi bm bM s true az).2 ≤ bM := by
  simp only [normalizeAxis, if_true]
  cases az with
  | true =>
    simp only [if_true]
    simp only [sortPair, clamp]
    omega
  | false =>
    simp only [Bool.false_eq_true, if_false]
    apply enforceMinSpan_bounds
    · simp only [sortPair, clamp]; omega
    · simp only [sortPair, clamp]; omega
    · simp only [sortPair, clamp]; omega
    · exact hs rfl

theorem NormOptions.allowZ_eq_false {o : NormOptions} (h : o.allowZeroSpan ≠ some true) :
    o.allowZ = false := by
  unfold NormOptions.allowZ
  match ho : o.allowZeroSpan with
  | none => rfl
  | some false => rfl
  | some true => exact absurd ho h

theorem NormOptions.clampB_eq_true {o : NormOptions} (h : o.clampToBounds ≠ some false) :
    o.clampB = true := by
  unfold NormOptions.clampB
  match ho : o.clampToBounds with
  | none => rfl
  | some true => rfl
  | some false => exact absurd ho h

/-- C3: for every raw input, with `allowZeroSpan` off (and non-negative
configured `minSpan`), every axis of the normalized ZoneConfig has
`max - min >= minSpan` — including equal or reversed raw bounds, and
regardless of whether the bounds clamp left a span smaller than
`minSpan`. -/
theorem c3_min_span (limits : Limits) (rawConfig : RawZoneConfig) (options : NormOptions)
    (haz : options.allowZeroSpan ≠ some true) (_hms : 0 ≤ limits.minSpan) :
    limits.minSpan ≤ (normalizeZoneConfig limits rawConfig options).x_max -
        (normalizeZoneConfig limits rawConfig options).x_min ∧
    limits.minSpan ≤ (normalizeZoneConfig limits rawConfig options).y_max -
        (normalizeZoneConfig limits rawConfig options).y_min ∧
    limits.minSpan ≤ (normalizeZoneConfig limits rawConfig options).z_max -
        (normalizeZoneConfig limits rawConfig options).z_min := by
  have haz' := NormOptions.allowZ_eq_false haz
  simp only [normalizeZoneConfig, haz']
  exact ⟨normalizeAxis_span _ _ _ _ _ _, normalizeAxis_span _ _ _ _ _ _,
    normalizeAxis_span _ _ _ _ _ _⟩

/-- C3 witness: default limits, an equal-bounds raw input. -/
theorem c3_min_span_witness :
    (({ clampToBounds := none, allowZeroSpan := none } : NormOptions).allowZeroSpan ≠ some true) ∧
    (0 ≤ DEFAULT_LIMITS.minSpan) ∧
    (DEFAULT_LIMITS.minSpan ≤
      (normalizeZoneConfig DEFAULT_LIMITS
        { x_min := .int 5, x_max := .int 5, y_min := .int 7, y_max := .int 3,
          z_min := .nonFinite, z_max := .int 2 } {}).x_max -
      (normalizeZoneConfig DEFAULT_LIMITS
        { x_min := .int 5, x_max := .int 5, y_min := .int 7, y_max := .int 3,
          z_min := .nonFinite, z_max := .int 2 } {}).x_min) :=
  ⟨by decide, by decide,
    (c3_min_span DEFAULT_LIMITS
      { x_min := .int 5, x_max := .int 5, y_min := .int 7, y_max := .int 3,
        z_min := .nonFinite, z_max := .int 2 } {} (by decide) (by decide)).1⟩

/-- C2 counterexample: with an axis configured narrower than `minSpan`
(x bounds `[0, 10]`, `minSpan` 20 — a configuration `init` accepts),
`clampToBounds` at its default and `allowZeroSpan` off, the raw input
`x_min = x_max = 5` normalizes to an `x_min` below the configured axis
minimum, so the output does not lie within the configured bounds. -/
theorem c2_counterexample :
    (normalizeZoneConfig
      { xMin := 0, xMax := 10, yMin := 0, yMax := 300, zMin := 0, zMax := 300, minSpan := 20 }
      { x_min := .int 5, x_max := .int 5, y_min := .int 100, y_max := .int 150,
        z_min := .int 100, z_max := .int 150 }
      {}).x_min <
    (0 : Int) := by
  decide

/-- C2 (amended): for every configuration whose per-axis bounds are
ordered and — unless `allowZeroSpan` is on — at least `minSpan` wide,
every raw input, and `clampToBounds` at its default, the normalized
ZoneConfig satisfies `min <= max` on each axis with both bounds inside the
configured axis bounds. -/
theorem c2_normalize_bounds (limits : Limits) (rawConfig : RawZoneConfig)
    (options : NormOptions)
    (hcb : options.clampToBounds ≠ some false)
    (hx : limits.xMin ≤ limits.xMax)
    (hy : limits.yMin ≤ limits.yMax)
    (hz : limits.zMin ≤ limits.zMax)
    (hxs : options.allowZeroSpan = some true ∨ limits.minSpan ≤ limits.xMax - limits.xMin)
    (hys : options.allowZeroSpan = some true ∨ limits.minSpan ≤ limits.yMax - limits.yMin)
    (hzs : options.allowZeroSpan = some true ∨ limits.minSpan ≤ limits.zMax - limits.zMin) :
    (limits.xMin ≤ (normalizeZoneConfig limits rawConfig options).x_min ∧
     (normalizeZoneConfig limits rawConfig options).x_min ≤
       (normalizeZoneConfig limits rawConfig options).x_max ∧
     (normalizeZoneConfig limits rawConfig options).x_max ≤ limits.xMax) ∧
    (limits.yMin ≤ (normalizeZoneConfig limits rawConfig options).y_min ∧
     (normalizeZoneConfig limits rawConfig options).y_min ≤
       (normalizeZoneConfig limits rawConfig options).y_max ∧
     (normalizeZoneConfig limits rawConfig options).y_max ≤ limits.yMax) ∧
    (limits.zMin ≤ (normalizeZoneConfig limits rawConfig options).z_min ∧
     (normalizeZoneConfig limits rawConfig options).z_min ≤
       (normalizeZoneConfig limits rawConfig options).z_max ∧
     (normalizeZoneConfig limits rawConfig options).z_max ≤ limits.zMax) := by
  have hcb' := NormOptions.clampB_eq_true hcb
  have haz : ∀ w1 w2 : Int,
      options.allowZeroSpan = some true ∨ limits.minSpan ≤ w2 - w1 →
      options.allowZ = false → limits.minSpan ≤ w2 - w1 := by
    intro w1 w2 hd hf
    rcases hd with hd | hd
    · exfalso
      simp only [NormOptions.allowZ, hd] at hf
      exact Bool.noConfusion hf
    · exact hd
  simp only [normalizeZoneConfig, hcb']
  exact ⟨normalizeAxis_bounds _ _ _ _ _ _ hx (haz _ _ hxs),
    normalizeAxis_bounds _ _ _ _ _ _ hy (haz _ _ hys),
    normalizeAxis_bounds _ _ _ _ _ _ hz (haz _ _ hzs)⟩

/-- C2 witness: default limits, a reversed and partly non-numeric raw
input, default options. -/
theorem c2_normalize_bounds_witness :
    (({} : NormOptions).clampToBounds ≠ some false) ∧
    (DEFAULT_LIMITS.xMin ≤ DEFAULT_LIMITS.xMax) ∧
    (DEFAULT_LIMITS.yMin ≤ DEFAULT_LIMITS.yMax) ∧
    (DEFAULT_LIMITS.zMin ≤ DEFAULT_LIMITS.zMax) ∧
    (DEFAULT_LIMITS.xMin ≤
      (normalizeZoneConfig DEFAULT_LIMITS
        { x_min := .int 99999, x_max := .nonFinite, y_min := .int 3, y_max := .int (-4000),
          z_min := .int 0, z_max := .int 0 } {}).x_min) :=
  ⟨by decide, by decide, by decide, by decide,
    ((c2_normalize_bounds DEFAULT_LIMITS
      { x_min := .int 99999, x_max := .nonFinite, y_min := .int 3, y_max := .int (-4000),
        z_min := .int 0, z_max := .int 0 } {} (by decide) (by decide) (by decide) (by decide)
      (Or.inr (by decide)) (Or.inr (by decide)) (Or.inr (by decide))).1).1⟩

/-- C8: with the test harness limits (x in [-200,200], y in [0,300],
z in [-50,200], minSpan 20), validating the raw config
`{x_min:1000, x_max:-900, y_min:-80, y_max:8, z_min:11, z_max:12}` with
`allowZeroSpan: false` yields `valid = true` with no errors, and every
axis of the normalized result has span at least 20 with both bounds
inside the corresponding axis limits. -/
theorem c8_validate_example :
    (validateZoneConfig TEST_LIMITS
      { x_min := .int 1000, x_max := .int (-900), y_min := .int (-80), y_max := .int 8,
        z_min := .int 11, z_max := .int 12 }
      { allowZeroSpan := some false }).valid = true ∧
    (validateZoneConfig TEST_LIMITS
      { x_min := .int 1000, x_max := .int (-900), y_min := .int (-80), y_max := .int 8,
        z_min := .int 11, z_max := .int 12 }
      { allowZeroSpan := some false }).errors = [] ∧
    ((validateZoneConfig TEST_LIMITS
      { x_min := .int 1000, x_max := .int (-900), y_min := .int (-80), y_max := .int 8,
        z_min := .int 11, z_max := .int 12 }
      { allowZeroSpan := some false }).normalized.x_max -
     (validateZoneConfig TEST_LIMITS
      { x_min := .int 1000, x_max := .int (-900), y_min := .int (-80), y_max := .int 8,
        z_min := .int 11, z_max := .int 12 }
      { allowZeroSpan := some false }).normalized.x_min ≥ 20 ∧
     TEST_LIMITS.xMin ≤ (validateZoneConfig TEST_LIMITS
      { x_min := .int 1000, x_max := .int (-900), y_min := .int (-80), y_max := .int 8,
        z_min := .int 11, z_max := .int 12 }
      { allowZeroSpan := some false }).normalized.x_min ∧
     (validateZoneConfig TEST_LIMITS
      { x_min := .int 1000, x_max := .int (-900), y_min := .int (-80), y_max := .int 8,
        z_min := .int 11, z_max := .int 12 }
      { allowZeroSpan := some false }).normalized.x_max ≤ TEST_LIMITS.xMax) ∧
    ((validateZoneConfig TEST_LIMITS
      { x_min := .int 1000, x_max := .int (-900), y_min := .int (-80), y_max := .int 8,
        z_min := .int 11, z_max := .int 12 }
      { allowZeroSpan := some false }).normalized.y_max -
     (validateZoneConfig TEST_LIMITS
      { x_min := .int 1000, x_max := .int (-900), y_min := .int (-80), y_max := .int 8,
        z_min := .int 11, z_max := .int 12 }
      { allowZeroSpan := some false }).normalized.y_min ≥ 20 ∧
     TEST_LIMITS.yMin ≤ (validateZoneConfig TEST_LIMITS
      { x_min := .int 1000, x_max := .int (-900), y_min := .int (-80), y_max := .int 8,
        z_min := .int 11, z_max := .int 12 }
      { allowZeroSpan := some false }).normalized.y_min ∧
     (validateZoneConfig TEST_LIMITS
      { x_min := .int 1000, x_max := .int (-900), y_min := .int (-80), y_max := .int 8,
        z_min := .int 11, z_max := .int 12 }
      { allowZeroSpan := some false }).normalized.y_max ≤ TEST_LIMITS.yMax) ∧
    ((validateZoneConfig TEST_LIMITS
      { x_min := .int 1000, x_max := .int (-900), y_min := .int (-80), y_max := .int 8,
        z_min := .int 11, z_max := .int 12 }
      { allowZeroSpan := some false }).normalized.z_max -
     (validateZoneConfig TEST_LIMITS
      { x_min := .int 1000, x_max := .int (-900), y_min := .int (-80), y_max := .int 8,
        z_min := .int 11, z_max := .int 12 }
      { allowZeroSpan := some false }).normalized.z_min ≥ 20 ∧
     TEST_LIMITS.zMin ≤ (validateZoneConfig TEST_LIMITS
      { x_min := .int 1000, x_max := .int (-900), y_min := .int (-80), y_max := .int 8,
        z_min := .int 11, z_max := .int 12 }
      { allowZeroSpan := some false }).normalized.z_min ∧
     (validateZoneConfig TEST_LIMITS
      { x_min := .int 1000, x_max := .int (-900), y_min := .int (-80), y_max := .int 8,
        z_min := .int 11, z_max := .int 12 }
      { allowZeroSpan := some false }).normalized.z_max ≤ TEST_LIMITS.zMax) := by
  decide

/-- C9: under the module's default axis limits, `buildAreaPayload` on
`"area2"` with `{x_min:120, x_max:40, y_min:250, y_max:50, z_min:100,
z_max:0}` returns exactly the payload keyed `area2` with each axis pair
sorted and the fields renamed to width/depth/height. -/
theorem c9_build_payload_example :
    buildAreaPayload DEFAULT_LIMITS "area2"
      { x_min := .int 120, x_max := .int 40, y_min := .int 250, y_max := .int 50,
        z_min := .int 100, z_max := .int 0 } =
    ("area2", { width_min := 40, width_max := 120, depth_min := 50, depth_max := 250,
                height_min := 0, height_max := 100 }) := by
  decide

theorem takeLast_of_le {L : Nat} {ps : List Point} (h : ps.length ≤ L) :
    takeLast L ps = ps := by
  unfold takeLast
  rw [Nat.sub_eq_zero_of_le h, List.drop_zero]

theorem takeLast_length_le (L : Nat) (ps : List Point) : (takeLast L ps).length ≤ L := by
  unfold takeLast
  rw [List.length_drop]
  omega

theorem takeLast_append_takeLast (L : Nat) (xs ys : List Point) :
    takeLast L (takeLast L xs ++ ys) = takeLast L (xs ++ ys) := by
  unfold takeLast
  rcases Nat.le_total xs.length L with h | h
  · rw [Nat.sub_eq_zero_of_le h, List.drop_zero]
  · rw [← List.drop_append_of_le_length (show xs.length - L ≤ xs.length by omega),
      List.drop_drop]
    congr 1
    simp only [List.length_drop, List.length_append]
    omega

theorem trimFront_eq_takeLast {L : Nat} {ps : List Point} (h : ps.length ≤ L + 1) :
    trimFront L ps = takeLast L ps := by
  unfold trimFront takeLast
  split
  · rw [show ps.length - L = 1 by omega, List.drop_one]
  · rw [Nat.sub_eq_zero_of_le (by omega), List.drop_zero]

theorem trimFront_length_le {L : Nat} {ps : List Point} (h : ps.length ≤ L + 1) :
    (trimFront L ps).length ≤ L := by
  rw [trimFront_eq_takeLast h]
  exact takeLast_length_le L ps

theorem histLookup_some_mem {id : Int} {h : HistMap} {ps : List Point}
    (hl : histLookup id h = some ps) : (id, ps) ∈ h := by
  induction h with
  | nil => simp [histLookup] at hl
  | cons e rest ih =>
    obtain ⟨k, qs⟩ := e
    by_cases hk : k = id
    · subst hk
      simp [histLookup] at hl
      subst hl
      exact List.mem_cons_self _ _
    · simp [histLookup, hk] at hl
      exact List.mem_cons_of_mem _ (ih hl)

theorem histLookup_pushPoint_self (L : Nat) (id : Int) (p : Point) (h : HistMap) :
    histLookup id (pushPoint L id p h) =
      some (trimFront L (((histLookup id h).getD []) ++ [p])) := by
  induction h with
  | nil => simp [pushPoint, histLookup]
  | cons e rest ih =>
    obtain ⟨k, qs⟩ := e
    by_cases hk : k = id
    · subst hk
      simp [pushPoint, histLookup]
    · simp [pushPoint, histLookup, hk, ih]

theorem histLookup_pushPoint_ne (L : Nat) {k id : Int} (p : Point) (h : HistMap)
    (hne : k ≠ id) : histLookup k (pushPoint L id p h) = histLookup k h := by
  induction h with
  | nil => simp [pushPoint, histLookup, Ne.symm hne]
  | cons e rest ih =>
    obtain ⟨k', qs⟩ := e
    by_cases hk : k' = id
    · subst hk
      simp [pushPoint, histLookup, Ne.symm hne]
    · by_cases hk2 : k' = k
      · subst hk2
        simp [pushPoint, histLookup, hk]
      · simp [pushPoint, histLookup, hk, hk2, ih]

theorem pushPoint_bounded {L : Nat} {h : HistMap} (id : Int) (p : Point)
    (hb : ∀ e ∈ h, e.2.length ≤ L) :
    ∀ e ∈ pushPoint L id p h, e.2.length ≤ L := by
  induction h with
  | nil =>
    intro e he
    simp [pushPoint] at he
    subst he
    exact trimFront_length_le (by simp)
  | cons e0 rest ih =>
    obtain ⟨k, qs⟩ := e0
    intro e he
    by_cases hk : k = id
    · subst hk
      simp [pushPoint] at he
      rcases he with he | he
      · subst he
        refine trimFront_length_le ?_
        have := hb (k, qs) (List.mem_cons_self _ _)
        simp at this ⊢
        omega
      · exact hb e (List.mem_cons_of_mem _ he)
    · simp [pushPoint, hk] at he
      rcases he with he | he
      · subst he
        exact hb (k, qs) (List.mem_cons_self _ _)
      · exact ih (fun e' he' => hb e' (List.mem_cons_of_mem _ he')) e he
theorem ptsOf_cons (id : Int) (t : Target) (ts : List Target) :
    ptsOf id (t :: ts) =
      if t.id = id then (t.x, t.y) :: ptsOf id ts else ptsOf id ts := by
  unfold ptsOf
  by_cases h : t.id = id <;> simp [List.filter_cons, h]

theorem ptsOf_eq_nil_iff (id : Int) (ts : List Target) :
    ptsOf id ts = [] ↔ id ∉ ts.map Target.id := by
  induction ts with
  | nil => simp [ptsOf]
  | cons t ts ih =>
    rw [ptsOf_cons]
    by_cases h : t.id = id
    · simp [h]
    · simp [h, ih]
      intro _ hc
      exact h hc.symm

theorem getD_length_le {L : Nat} {id : Int} {h : HistMap}
    (hb : ∀ e ∈ h, e.2.length ≤ L) : ((histLookup id h).getD []).length ≤ L := by
  rcases hl : histLookup id h with _ | ps
  · simp
  · simpa using hb (id, ps) (histLookup_some_mem hl)

theorem histLookup_foldl_push (L : Nat) (id : Int) (ts : List Target) :
    ∀ h : HistMap, (∀ e ∈ h, e.2.length ≤ L) →
    histLookup id (ts.foldl (fun acc t => pushPoint L t.id (t.x, t.y) acc) h) =
      (if histLookup id h = none ∧ ptsOf id ts = [] then none
       else some (takeLast L (((histLookup id h).getD []) ++ ptsOf id ts))) := by
  induction ts with
  | nil =>
    intro h hb
    simp only [List.foldl_nil, ptsOf]
    rcases hl : histLookup id h with _ | ps
    · simp
    · have hle : ps.length ≤ L := by simpa using hb (id, ps) (histLookup_some_mem hl)
      simp [takeLast_of_le hle]
  | cons t ts ih =>
    intro h hb
    simp only [List.foldl_cons]
    rw [ih _ (pushPoint_bounded _ _ hb)]
    by_cases hid : t.id = id
    · subst hid
      rw [histLookup_pushPoint_self]
      have hd : ((histLookup t.id h).getD []).length ≤ L := getD_length_le hb
      rw [trimFront_eq_takeLast (by simp; omega)]
      rw [ptsOf_cons]
      simp only [if_pos rfl]
      rw [if_neg (by simp), if_neg (by simp)]
      rw [Option.getD_some, takeLast_append_takeLast]
      simp
    · rw [histLookup_pushPoint_ne _ _ _ (fun hc => hid hc.symm)]
      rw [ptsOf_cons, if_neg hid]

theorem histLookup_filter_mem (id : Int) (ids : List Int) (h : HistMap) :
    histLookup id (h.filter (fun e => decide (e.1 ∈ ids))) =
      if id ∈ ids then histLookup id h else none := by
  induction h with
  | nil => simp [histLookup]
  | cons e rest ih =>
    obtain ⟨k, ps⟩ := e
    by_cases hk : k = id
    · subst hk
      by_cases hm : k ∈ ids
      · simp [List.filter_cons, hm, histLookup]
      · simp [List.filter_cons, hm, histLookup, ih]
    · by_cases hm : k ∈ ids
      · simp [List.filter_cons, hm, histLookup, hk, ih]
      · simp [List.filter_cons, hm, histLookup, hk, ih]

theorem filter_bounded {L : Nat} {h : HistMap} (q : Int × List Point → Bool)
    (hb : ∀ e ∈ h, e.2.length ≤ L) : ∀ e ∈ h.filter q, e.2.length ≤ L :=
  fun e he => hb e (List.mem_of_mem_filter he)

theorem histLookup_updateHistory (L : Nat) (id : Int) (hist : HistMap) (ts : List Target)
    (hb : ∀ e ∈ hist, e.2.length ≤ L) :
    histLookup id (updateHistory L hist ts) =
      (if id ∈ ts.map Target.id
       then some (takeLast L (((histLookup id hist).getD []) ++ ptsOf id ts))
       else none) := by
  unfold updateHistory
  rw [histLookup_foldl_push L id ts _ (filter_bounded _ hb)]
  rw [histLookup_filter_mem]
  by_cases hm : id ∈ ts.map Target.id
  · rw [if_pos hm, if_pos hm, if_neg]
    intro hc
    exact ((ptsOf_eq_nil_iff id ts).mp hc.2) hm
  · rw [if_neg hm, if_neg hm, if_pos]
    exact ⟨rfl, (ptsOf_eq_nil_iff id ts).mpr hm⟩

theorem foldl_push_bounded (L : Nat) (ts : List Target) :
    ∀ h : HistMap, (∀ e ∈ h, e.2.length ≤ L) →
    ∀ e ∈ ts.foldl (fun acc t => pushPoint L t.id (t.x, t.y) acc) h, e.2.length ≤ L := by
  induction ts with
  | nil => intro h hb; simpa using hb
  | cons t ts ih =>
    intro h hb
    simpa using ih _ (pushPoint_bounded _ _ hb)

theorem updateHistory_bounded (L : Nat) (hist : HistMap) (ts : List Target)
    (hb : ∀ e ∈ hist, e.2.length ≤ L) :
    ∀ e ∈ updateHistory L hist ts, e.2.length ≤ L := by
  unfold updateHistory
  exact foldl_push_bounded L ts _ (filter_bounded _ hb)
theorem shouldRender_getD_true {env : CallEnv} (hg : env.shouldRenderTargets ≠ some false) :
    env.shouldRenderTargets.getD true = true := by
  rcases henv : env.shouldRenderTargets with _ | b
  · rfl
  · cases b
    · exact absurd henv hg
    · rfl

theorem handleNewData_accepted_history (cfg : Config) (env : CallEnv) (s : ZonesState)
    (t : String) (pl : Payload)
    (ht : t ≠ "") (hc : env.chartAvailable = true)
    (hg : env.shouldRenderTargets ≠ some false) :
    (handleNewData cfg env s (some ⟨some t, some pl⟩) (some t)).state.targetHistory =
      updateHistory cfg.historyLength s.targetHistory
        ((pl.targets.getD []).map normalizeTarget) := by
  have hg' := shouldRender_getD_true hg
  simp only [handleNewData, strFalsy, ht, decide_False, Option.isNone_some, Bool.or_self,
    Bool.or_false, Bool.false_or, ne_eq, not_true_eq_false, hc, Bool.not_true,
    Bool.false_eq_true, if_false, hg', Option.some.injEq, if_true]
  split
  · rfl
  all_goals split
  all_goals ((try split) <;> (try rfl))
  all_goals ((try split) <;> (try rfl))
  all_goals ((try split) <;> rfl)

/-- C6: after every accepted frame (from a state whose trails respect the
cap), the target-history map contains exactly the ids present in that
frame's normalized target list — an id absent from the frame has its
entire trail removed, so its lookup is `none` and it contributes nothing
to the flattened output — and each stored trail is the last
`historyLength` points (default 15) of the old trail extended by the
frame's points, i.e. a FIFO window dropping the oldest point first. -/
theorem c6_history_invariant (cfg : Config) (env : CallEnv) (s : ZonesState)
    (t : String) (pl : Payload) (id : Int)
    (ht : t ≠ "") (hc : env.chartAvailable = true)
    (hg : env.shouldRenderTargets ≠ some false)
    (hb : ∀ e ∈ s.targetHistory, e.2.length ≤ cfg.historyLength) :
    (∀ e ∈ (handleNewData cfg env s (some ⟨some t, some pl⟩) (some t)).state.targetHistory,
       e.2.length ≤ cfg.historyLength) ∧
    histLookup id
        (handleNewData cfg env s (some ⟨some t, some pl⟩) (some t)).state.targetHistory =
      (if id ∈ ((pl.targets.getD []).map normalizeTarget).map Target.id
       then some (takeLast cfg.historyLength
         (((histLookup id s.targetHistory).getD []) ++
           ptsOf id ((pl.targets.getD []).map normalizeTarget)))
       else none) := by
  rw [handleNewData_accepted_history cfg env s t pl ht hc hg]
  exact ⟨updateHistory_bounded _ _ _ hb, histLookup_updateHistory _ _ _ _ hb⟩

/-- C6 witness: capacity 1, one prior point, one new target — the oldest
point is dropped. -/
theorem c6_history_invariant_witness :
    ("t" ≠ "") ∧
    (({} : CallEnv).chartAvailable = true) ∧
    (({} : CallEnv).shouldRenderTargets ≠ some false) ∧
    (∀ e ∈ ({ targetHistory := [(1, [((0 : Int), (0 : Int))])] } : ZonesState).targetHistory,
      e.2.length ≤ ({ historyLength := 1 } : Config).historyLength) ∧
    histLookup 1
        (handleNewData { historyLength := 1 } {}
          { targetHistory := [(1, [((0 : Int), (0 : Int))])] }
          (some ⟨some "t", some ⟨some [⟨.int 1, .int 5, .int 6, .int 0, .int 0⟩]⟩⟩)
          (some "t")).state.targetHistory = some [((5 : Int), (6 : Int))] :=
  ⟨by decide, by decide, by decide, by decide,
    ((c6_history_invariant { historyLength := 1 } {}
      { targetHistory := [(1, [((0 : Int), (0 : Int))])] } "t"
      ⟨some [⟨.int 1, .int 5, .int 6, .int 0, .int 0⟩]⟩ 1
      (by decide) (by decide) (by decide) (by decide)).2).trans (by decide)⟩
theorem strContains_append_mid (x m y : String) : strContains (x ++ m ++ y) m := by
  unfold strContains
  exact ⟨x.data, y.data, by simp [String.data_append]⟩

theorem strContains_append_right (x m : String) : strContains (x ++ m) m := by
  unfold strContains
  exact ⟨x.data, [], by simp [String.data_append]⟩

theorem strContains_refl (m : String) : strContains m m := by
  unfold strContains
  exact ⟨[], [], by simp⟩

/-- C5: from any state, `setPendingCommand(3)` followed by
`handleInterferenceZones([])` leaves the pending-command id absent
(`getPendingCommandId` returns null) and emits both a status-sink update
and a toast whose messages contain "Interference cleared", reported with
the success mode `saved` rather than `error`. -/
theorem c5_clear_interference (s : ZonesState) :
    getPendingCommandId
      (handleInterferenceZones (setPendingCommand s (.int 3)).1 (some [])).1 = none ∧
    (∃ m, UIEvent.packetStatus "saved" m ∈
        (handleInterferenceZones (setPendingCommand s (.int 3)).1 (some [])).2 ∧
      strContains m "Interference cleared") ∧
    (∃ m, UIEvent.toastNote "saved" m (some 2200) ∈
        (handleInterferenceZones (setPendingCommand s (.int 3)).1 (some [])).2 ∧
      strContains m "Interference cleared") := by
  refine ⟨rfl, ⟨"Interference cleared: zones reset.", ?_, ?_⟩,
    ⟨"Interference cleared: zones reset.", ?_, ?_⟩⟩
  · simp [setPendingCommand, handleInterferenceZones, RawValue.int]
  · exact ⟨[], ": zones reset.".data, by decide⟩
  · simp [setPendingCommand, handleInterferenceZones, RawValue.int]
  · exact ⟨[], ": zones reset.".data, by decide⟩

/-- C10: for every doppler value, the chart-marker label from
`getMotionLabelFromDoppler` is "Moving" when `dop > 10` or `dop < -10` and
"Stationary" otherwise — never "Approaching" — so a target with
`dop < -10` gets chart text containing "Moving" while its table row
contains the badge "Approaching". -/
theorem c10_motion_label_divergence (dop : Int) (t : Target) :
    getMotionLabelFromDoppler dop = (if 10 < dop ∨ dop < -10 then "Moving" else "Stationary") ∧
    getMotionLabelFromDoppler dop ≠ "Approaching" ∧
    (t.dop < -10 →
      strContains (chartTargetText t) "Moving" ∧
      strContains (targetRowHtml t) "Approaching" ∧
      getMotionLabelFromDoppler t.dop = "Moving" ∧
      dopplerBadgeStatus t.dop = "Approaching") := by
  refine ⟨rfl, ?_, ?_⟩
  · unfold getMotionLabelFromDoppler
    split <;> decide
  · intro h
    have hm : getMotionLabelFromDoppler t.dop = "Moving" := by
      unfold getMotionLabelFromDoppler
      rw [if_pos (Or.inr h)]
    have hs : dopplerBadgeStatus t.dop = "Approaching" := by
      unfold dopplerBadgeStatus
      rw [if_neg (by omega), if_pos h]
    refine ⟨?_, ?_, hm, hs⟩
    · unfold chartTargetText
      rw [hm]
      exact strContains_append_right _ _
    · unfold targetRowHtml
      rw [hs]
      exact strContains_append_mid _ _ _

/-- C10 witness: the approaching target `dop = -11`. -/
theorem c10_motion_label_divergence_witness :
    ((-11 : Int) < -10) ∧
    strContains (targetRowHtml { id := 2, x := 0, y := 0, z := 0, dop := -11 }) "Approaching" ∧
    getMotionLabelFromDoppler (-11) = "Moving" :=
  ⟨by decide,
   ((c10_motion_label_divergence (-11)
      { id := 2, x := 0, y := 0, z := 0, dop := -11 }).2.2 (by decide)).2.1,
   ((c10_motion_label_divergence (-11)
      { id := 2, x := 0, y := 0, z := 0, dop := -11 }).2.2 (by decide)).2.2.1⟩

/-- C7: whenever the message, its topic, or its payload is absent (falsy),
or the message topic differs from the supplied current topic, or the chart
surface is unavailable, `handleNewData` returns `false` and performs no
side effects: the state (target history, suppression flag, pending-command
id, table markup) is unchanged and no outbound call is made. -/
theorem c7_rejected_frame_no_effects (cfg : Config) (env : CallEnv) (s : ZonesState)
    (msg : Option FrameMsg) (currentTopic : Option String)
    (hrej : msg = none ∨
      (∃ m, msg = some m ∧ (strFalsy m.topic = true ∨ m.payload = none)) ∨
      strFalsy currentTopic = true ∨
      (∃ m, msg = some m ∧ m.topic ≠ currentTopic) ∨
      env.chartAvailable = false) :
    handleNewData cfg env s msg currentTopic = ⟨.ok false, s, []⟩ := by
  rcases hrej with h | ⟨m, rfl, h | h⟩ | h | ⟨m, rfl, h⟩ | h
  · subst h; rfl
  · simp only [handleNewData, h, Bool.true_or, if_true]
  · simp only [handleNewData, h, Option.isNone_none, Bool.or_true, if_true]
  · cases msg with
    | none => rfl
    | some m =>
      simp only [handleNewData, h, Bool.true_or, eq_self_iff_true, if_true]
      split <;> rfl
  · have hd : decide (m.topic ≠ currentTopic) = true := decide_eq_true h
    simp only [handleNewData, hd, Bool.or_true, eq_self_iff_true, if_true]
    split <;> rfl
  · cases msg with
    | none => rfl
    | some m =>
      simp only [handleNewData, h, Bool.not_false, eq_self_iff_true, if_true]
      split
      · rfl
      · split <;> rfl
theorem handleNewData_first_suppressed (cfg : Config) (env : CallEnv) (s : ZonesState)
    (t : String) (pl : Payload)
    (hs : s.targetsSuppressedByGate = false) (ht : t ≠ "")
    (hc : env.chartAvailable = true) (hg : env.shouldRenderTargets = some false) :
    handleNewData cfg env s (some ⟨some t, some pl⟩) (some t) =
      ⟨.ok true,
        { targetHistory := [], targetsSuppressedByGate := true,
          lastCommandId := s.lastCommandId,
          tableHTML := if env.tableAvailable then noDataRowHtml "No targets detected"
            else s.tableHTML },
        (if env.restyleThrows then [UIEvent.restyleClear 0]
         else [UIEvent.restyleClear 0, UIEvent.restyleClear 1]) ++
          [UIEvent.packetStatus "info" "No active occupancy"]⟩ := by
  simp only [handleNewData, clearTargetVisualization, strFalsy, ht, decide_False,
    Option.isNone_some, Bool.or_self, Bool.or_false, Bool.false_or, ne_eq,
    not_true_eq_false, hc, Bool.not_true, Bool.false_eq_true, if_false, hg,
    Option.getD_some, Bool.not_false, if_true, hs, eq_self_iff_true]
  split <;> split <;> rfl

theorem handleNewData_repeat_suppressed (cfg : Config) (env : CallEnv) (s : ZonesState)
    (t : String) (pl : Payload)
    (hs : s.targetsSuppressedByGate = true) (ht : t ≠ "")
    (hc : env.chartAvailable = true) (hg : env.shouldRenderTargets = some false) :
    handleNewData cfg env s (some ⟨some t, some pl⟩) (some t) = ⟨.ok true, s, []⟩ := by
  simp only [handleNewData, strFalsy, ht, decide_False, Option.isNone_some, Bool.or_self,
    Bool.or_false, Bool.false_or, ne_eq, not_true_eq_false, hc, Bool.not_true,
    Bool.false_eq_true, if_false, hg, Option.getD_some, Bool.not_false, if_true, hs,
    eq_self_iff_true]
  rw [show ({ s with targetsSuppressedByGate := true } : ZonesState) = s by rw [← hs]]

/-- C4: from a state with the suppression flag down, a topic-matching
frame delivered while the gate returns `false` is handled (`true`), issues
at least one chart-clearing restyle, writes the table empty-state text,
and emits a status containing "No active occupancy"; a second consecutive
suppressed frame is still handled but produces no further call, no table
change, and no status emission (the state is unchanged and the event list
is empty). -/
theorem c4_gate_suppression (cfg : Config) (env1 env2 : CallEnv) (s : ZonesState)
    (t1 t2 : String) (pl1 pl2 : Payload)
    (hs : s.targetsSuppressedByGate = false)
    (ht1 : t1 ≠ "") (hc1 : env1.chartAvailable = true) (htab1 : env1.tableAvailable = true)
    (hg1 : env1.shouldRenderTargets = some false)
    (ht2 : t2 ≠ "") (hc2 : env2.chartAvailable = true)
    (hg2 : env2.shouldRenderTargets = some false) :
    (handleNewData cfg env1 s (some ⟨some t1, some pl1⟩) (some t1)).result = .ok true ∧
    UIEvent.restyleClear 0 ∈
      (handleNewData cfg env1 s (some ⟨some t1, some pl1⟩) (some t1)).events ∧
    (handleNewData cfg env1 s (some ⟨some t1, some pl1⟩) (some t1)).state.tableHTML =
      noDataRowHtml "No targets detected" ∧
    (∃ msg, UIEvent.packetStatus "info" msg ∈
        (handleNewData cfg env1 s (some ⟨some t1, some pl1⟩) (some t1)).events ∧
      strContains msg "No active occupancy") ∧
    handleNewData cfg env2
        (handleNewData cfg env1 s (some ⟨some t1, some pl1⟩) (some t1)).state
        (some ⟨some t2, some pl2⟩) (some t2) =
      ⟨.ok true, (handleNewData cfg env1 s (some ⟨some t1, some pl1⟩) (some t1)).state, []⟩ := by
  have e1 := handleNewData_first_suppressed cfg env1 s t1 pl1 hs ht1 hc1 hg1
  rw [e1]
  refine ⟨rfl, ?_, ?_, ⟨"No active occupancy", ?_, strContains_refl _⟩, ?_⟩
  · rcases env1.restyleThrows <;> simp
  · rw [if_pos htab1]
  · rcases env1.restyleThrows <;> simp
  · exact handleNewData_repeat_suppressed cfg env2 _ t2 pl2 rfl ht2 hc2 hg2

/-- C4 witness: two concrete suppressed frames from the initial state. -/
theorem c4_gate_suppression_witness :
    (({} : ZonesState).targetsSuppressedByGate = false) ∧
    ("t" ≠ "") ∧
    (({ shouldRenderTargets := some false } : CallEnv).chartAvailable = true) ∧
    (({ shouldRenderTargets := some false } : CallEnv).tableAvailable = true) ∧
    (({ shouldRenderTargets := some false } : CallEnv).shouldRenderTargets = some false) ∧
    ((handleNewData {} { shouldRenderTargets := some false } {}
        (some ⟨some "t", some ⟨some []⟩⟩) (some "t")).result = .ok true ∧
      UIEvent.restyleClear 0 ∈
        (handleNewData {} { shouldRenderTargets := some false } {}
          (some ⟨some "t", some ⟨some []⟩⟩) (some "t")).events ∧
      (handleNewData {} { shouldRenderTargets := some false } {}
        (some ⟨some "t", some ⟨some []⟩⟩) (some "t")).state.tableHTML =
        noDataRowHtml "No targets detected" ∧
      (∃ msg, UIEvent.packetStatus "info" msg ∈
          (handleNewData {} { shouldRenderTargets := some false } {}
            (some ⟨some "t", some ⟨some []⟩⟩) (some "t")).events ∧
        strContains msg "No active occupancy") ∧
      handleNewData {} { shouldRenderTargets := some false }
          (handleNewData {} { shouldRenderTargets := some false } {}
            (some ⟨some "t", some ⟨some []⟩⟩) (some "t")).state
          (some ⟨some "t", some ⟨some []⟩⟩) (some "t") =
        ⟨.ok true,
          (handleNewData {} { shouldRenderTargets := some false } {}
            (some ⟨some "t", some ⟨some []⟩⟩) (some "t")).state, []⟩) :=
  ⟨by decide, by decide, by decide, by decide, by decide,
    c4_gate_suppression {} { shouldRenderTargets := some false }
      { shouldRenderTargets := some false } {} "t" "t" ⟨some []⟩ ⟨some []⟩
      (by decide) (by decide) (by decide) (by decide) (by decide) (by decide) (by decide)
      (by decide)⟩
theorem optBool_getD_false {o : Option Bool} (h : o ≠ some true) : o.getD false = false := by
  rcases ho : o with _ | b
  · rfl
  · cases b
    · rfl
    · exact absurd ho h

theorem handleNewData_react_throw (cfg : Config) (env : CallEnv) (s : ZonesState)
    (t : String) (pl : Payload)
    (ht : t ≠ "") (hc : env.chartAvailable = true)
    (hg : env.shouldRenderTargets ≠ some false) (he : env.isEditing ≠ some true)
    (hrt : env.reactThrows = true) :
    (handleNewData cfg env s (some ⟨some t, some pl⟩) (some t)).result = .error () := by
  have hg2 := shouldRender_getD_true hg
  have he2 := optBool_getD_false he
  simp only [handleNewData, strFalsy, ht, decide_False, Option.isNone_some, Bool.or_self,
    Bool.or_false, Bool.false_or, ne_eq, not_true_eq_false, hc, Bool.not_true,
    Bool.false_eq_true, if_false, hg2, Bool.not_false, if_true, he2, Bool.false_and,
    hrt, eq_self_iff_true]

theorem handleNewData_restyle_throw (cfg : Config) (env : CallEnv) (s : ZonesState)
    (t : String) (pl : Payload)
    (ht : t ≠ "") (hc : env.chartAvailable = true)
    (hg : env.shouldRenderTargets ≠ some false) (he : env.isEditing = some true)
    (hi : env.isInteracting ≠ some true) (hrt : env.restyleThrows = true) :
    (handleNewData cfg env s (some ⟨some t, some pl⟩) (some t)).result = .error () := by
  have hg2 := shouldRender_getD_true hg
  have he2 : env.isEditing.getD false = true := by rw [he]; rfl
  have hi2 := optBool_getD_false hi
  simp only [handleNewData, strFalsy, ht, decide_False, Option.isNone_some, Bool.or_self,
    Bool.or_false, Bool.false_or, ne_eq, not_true_eq_false, hc, Bool.not_true,
    Bool.false_eq_true, if_false, hg2, Bool.not_false, if_true, he2, hi2, Bool.and_false,
    hrt, eq_self_iff_true]

/-- C1 counterexample: an accepted frame (gate open, not editing) while
the chart surface's full redraw throws makes `handleNewData` propagate the
exception instead of returning `true`: the accepted-frame chart calls are
not wrapped in try/catch in the source. -/
theorem c1_counterexample :
    (handleNewData {} { reactThrows := true } {}
      (some ⟨some "t", some ⟨some [⟨.int 1, .int 77, .int 44, .int (-16), .int 0⟩]⟩⟩)
      (some "t")).result = Except.error () ∧
    (handleNewData {} { reactThrows := true } {}
      (some ⟨some "t", some ⟨some [⟨.int 1, .int 77, .int 44, .int (-16), .int 0⟩]⟩⟩)
      (some "t")).result ≠ Except.ok true := by
  constructor <;> decide

/-- C1 (amended): for every telemetry frame accepted by `handleNewData`,
exceptions from the chart-clearing calls on a gate-suppressed frame are
caught and discarded (`handleNewData` still returns `true`, whether or not
the clearing restyle throws), but an exception thrown by the
accepted-frame pipeline's chart call (the incremental two-series restyle
while editing, or the full redraw otherwise) is not caught and propagates
to the caller. -/
theorem c1_chart_exception_behavior (cfg : Config) (env : CallEnv) (s : ZonesState)
    (t : String) (pl : Payload) (ht : t ≠ "") (hc : env.chartAvailable = true) :
    (env.shouldRenderTargets = some false →
      (handleNewData cfg env s (some ⟨some t, some pl⟩) (some t)).result = .ok true) ∧
    (env.shouldRenderTargets ≠ some false → env.isEditing ≠ some true →
      env.reactThrows = true →
      (handleNewData cfg env s (some ⟨some t, some pl⟩) (some t)).result = .error ()) ∧
    (env.shouldRenderTargets ≠ some false → env.isEditing = some true →
      env.isInteracting ≠ some true → env.restyleThrows = true →
      (handleNewData cfg env s (some ⟨some t, some pl⟩) (some t)).result = .error ()) := by
  refine ⟨?_, ?_, ?_⟩
  · intro hg
    rcases hsf : s.targetsSuppressedByGate with _ | _
    · rw [handleNewData_first_suppressed cfg env s t pl hsf ht hc hg]
    · rw [handleNewData_repeat_suppressed cfg env s t pl hsf ht hc hg]
  · exact handleNewData_react_throw cfg env s t pl ht hc
  · exact handleNewData_restyle_throw cfg env s t pl ht hc

/-- C1 witness: a concrete frame environment whose full redraw throws. -/
theorem c1_chart_exception_behavior_witness :
    ("t" ≠ "") ∧
    (({ reactThrows := true } : CallEnv).chartAvailable = true) ∧
    ((({ reactThrows := true } : CallEnv).shouldRenderTargets = some false →
      (handleNewData {} { reactThrows := true } {}
        (some ⟨some "t", some ⟨some []⟩⟩) (some "t")).result = .ok true) ∧
     (({ reactThrows := true } : CallEnv).shouldRenderTargets ≠ some false →
      ({ reactThrows := true } : CallEnv).isEditing ≠ some true →
      ({ reactThrows := true } : CallEnv).reactThrows = true →
      (handleNewData {} { reactThrows := true } {}
        (some ⟨some "t", some ⟨some []⟩⟩) (some "t")).result = .error ()) ∧
     (({ reactThrows := true } : CallEnv).shouldRenderTargets ≠ some false →
      ({ reactThrows := true } : CallEnv).isEditing = some true →
      ({ reactThrows := true } : CallEnv).isInteracting ≠ some true →
      ({ reactThrows := true } : CallEnv).restyleThrows = true →
      (handleNewData {} { reactThrows := true } {}
        (some ⟨some "t", some ⟨some []⟩⟩) (some "t")).result = .error ())) :=
  ⟨by decide, by decide,
    c1_chart_exception_behavior {} { reactThrows := true } {} "t" ⟨some []⟩
      (by decide) (by decide)⟩
/-- C7 witness: an absent message is rejected with no effects. -/
theorem c7_rejected_frame_no_effects_witness :
    ((none : Option FrameMsg) = none ∨
      (∃ m, (none : Option FrameMsg) = some m ∧ (strFalsy m.topic = true ∨ m.payload = none)) ∨
      strFalsy (some "t") = true ∨
      (∃ m, (none : Option FrameMsg) = some m ∧ m.topic ≠ some "t") ∨
      ({} : CallEnv).chartAvailable = false) ∧
    handleNewData {} {} {} none (some "t") = ⟨.ok false, {}, []⟩ :=
  ⟨Or.inl rfl, c7_rejected_frame_no_effects {} {} {} none (some "t") (Or.inl rfl)⟩

end SwitchStudioZones
